import Mathlib

/-!
Verification of the LOOKMAXING frontend synchronization core
(StorageService + DataContext + plan screens), shallowly embedded in Lean.

The embedding follows the per-user-key revision of the storage module
(the file that defines getUserKey and the KEYS record with PROFILE,
DAILY_TIPS_COMPLETED, CHALLENGES_COMPLETED, DAILY_USAGE, LIFETIME_STATS
and SCANS), the DataContext provider and the PlansScreen lock logic.

Modelling conventions:
  * AsyncStorage is an association list from string keys to structured
    stored values; JSON.stringify/JSON.parse round-trips are modelled by
    storing the structured value directly.  A value of an unexpected
    shape at a key corresponds to a JSON parse of the wrong shape and is
    handled by the same catch/default branch the code uses.
  * The ambient Date library is an environment record: `today` is the
    result of new Date().toDateString(), `todayLocale` the result of
    new Date().toLocaleDateString(), `dsOf d` the result of
    new Date(d).toDateString(), `now` is Date.now(), and `nowISO` is
    new Date().toISOString().
  * The auth session is an `Option String` holding the current user id.
  * Remote (supabase / REST) results reaching a storage function are
    explicit parameters; a fallible remote step is an `Except Unit`
    value whose `error` case stands for any network or parse failure.
-/

set_option autoImplicit false

namespace Lookmax

/-- The six bounded facial metric scores plus the overall score. -/
structure FacialStats where
  symmetry : Int
  jawline : Int
  proportions : Int
  skinClarity : Int
  masculinity : Int
  cheekbones : Int
  overall : Int
  deriving DecidableEq, Repr

/-- Lifestyle answers attached to a scan record. -/
structure Lifestyle where
  sleep : Int
  water : Int
  diet : String
  exercise : String
  deriving DecidableEq, Repr

/-- A scan record as stored by the client. -/
structure ScanRecord where
  id : String
  date : String
  imageUri : Option String
  stats : FacialStats
  lifestyle : Lifestyle
  deriving DecidableEq, Repr

/-- The user profile record. -/
structure UserProfile where
  name : String
  age : Int
  gender : Option String
  height : Option Int
  weight : Option Int
  avatarUri : Option String
  deriving DecidableEq, Repr

/-- The lifetime statistics blob. -/
structure LifetimeStats where
  totalScans : Nat
  daysActive : Nat
  lastScanDate : String
  deriving DecidableEq, Repr

/-- Default lifetime stats returned when nothing is stored. -/
def LIFETIME_DEFAULT : LifetimeStats :=
  { totalScans := 0, daysActive := 0, lastScanDate := "Never" }

/-- A value stored under some AsyncStorage key, as the JSON shapes the
code writes: a profile blob, a scans list, a daily-usage blob
(date, count, lastScanTime), a lifetime-stats blob, or a
tips-completed blob (date, completed). -/
inductive StoredVal where
  | profile (p : UserProfile)
  | scans (l : List ScanRecord)
  | usage (date : String) (count : Nat) (lastScanTime : Nat)
  | lifetime (s : LifetimeStats)
  | tips (date : String) (completed : List String)
  deriving DecidableEq, Repr

/-- The on-device key-value store (AsyncStorage). -/
abbrev Store : Type := List (String × StoredVal)

/-- AsyncStorage.getItem: first binding of the key, if any. -/
def getItem (st : Store) (k : String) : Option StoredVal :=
  match st with
  | [] => none
  | (k', v) :: rest => if k' = k then some v else getItem rest k

/-- AsyncStorage.setItem: bind the key, shadowing any previous binding. -/
def setItem (st : Store) (k : String) (v : StoredVal) : Store :=
  (k, v) :: st

/-- AsyncStorage.multiRemove: drop every binding of each listed key. -/
def multiRemove (st : Store) (ks : List String) : Store :=
  st.filter (fun kv => kv.1 ∉ ks)

/-- The ambient device clock / date library. -/
structure Env where
  today : String
  todayLocale : String
  now : Nat
  nowISO : String
  dsOf : String → String

namespace KEYS

def PROFILE : String := "lookmax_profile"

def DAILY_TIPS_COMPLETED : String := "lookmax_daily_tips"

def CHALLENGES_COMPLETED : String := "lookmax_challenges"

def DAILY_USAGE : String := "lookmax_daily_usage"

def LIFETIME_STATS : String := "lookmax_lifetime_stats"

def SCANS : String := "lookmax_scans"

end KEYS

/-- getUserKey: resolve the current user id into a per-user key, or
`none` when no session exists. -/
def getUserKey (baseKey : String) (sess : Option String) : Option String :=
  sess.map (fun uid => baseKey ++ "_" ++ uid)

/-- JavaScript `a || d` for an optional string: the default replaces
both a missing and an empty-string value. -/
def jsOrStr (o : Option String) (d : String) : String :=
  match o with
  | some s => if s = "" then d else s
  | none => d

/-- JavaScript `a || d` for an optional integer: the default replaces
both a missing and a zero value. -/
def jsOrInt (o : Option Int) (d : Int) : Int :=
  match o with
  | some n => if n = 0 then d else n
  | none => d

/-- A remote call the storage layer can request (api.resetData issues
both scansReset and profileReset; api.resetScanHistory only the
former). -/
inductive ApiCall where
  | scansReset
  | profileReset
  deriving DecidableEq, Repr

/-- A row of the remote `profiles` table, with both potential column
names for height and weight. -/
structure RemoteProfileRow where
  name : Option String
  age : Option Int
  gender : Option String
  height_cm : Option Int
  height : Option Int
  weight_kg : Option Int
  weight : Option Int
  deriving DecidableEq, Repr

/-- A daily plan / exercise entry as held by the client. -/
structure DailyPlan where
  id : String
  title : String
  description : String
  duration : String
  completed : Bool
  deriving DecidableEq, Repr

/-- The aggregate weekly report attached to a weekly plan. -/
structure WeeklyPlanReport where
  averageScore : Int
  consistencyScore : Int
  stats : FacialStats
  strongestFeature : String
  weakestFeature : String
  deriving DecidableEq, Repr

/-- The client-side weekly plan. -/
structure WeeklyPlan where
  generatedAt : String
  exercises : List DailyPlan
  focusAreas : List String
  report : Option WeeklyPlanReport
  deriving DecidableEq, Repr

/-- An element of the remote weekly routine array. -/
structure RemoteExercise where
  name : String
  instructions : Option String
  duration : String
  deriving DecidableEq, Repr

/-- The remote weekly-plan response; `weekly_routine` is `none` when
the field is missing from the payload (accessing .map on it throws,
which the surrounding try/catch turns into an absent plan). -/
structure WeeklyPlanResp where
  is_locked : Bool
  weekly_routine : Option (List RemoteExercise)
  deriving DecidableEq, Repr

/-- The stats portion of the remote weekly report. -/
structure WeeklyStatsResp where
  average_score : Int
  consistency_score : Int
  metric_averages : List (String × Int)
  top_metric : String
  weakest_metric : String
  deriving DecidableEq, Repr

/-- The remote weekly-report response. -/
structure WeeklyReportResp where
  is_locked : Bool
  stats : Option WeeklyStatsResp
  deriving DecidableEq, Repr

/-- An element of the remote daily routine array, which may be a bare
string or a structured exercise. -/
inductive RoutineItem where
  | str (s : String)
  | ex (name : String) (instructions : String) (duration : String)
  deriving DecidableEq, Repr

/-- The remote daily-plan response. -/
structure DailyPlanResponse where
  is_locked : Option Bool
  routine : Option (List RoutineItem)
  deriving DecidableEq, Repr

namespace StorageService

/-- StorageService.getProfile.  Returns the produced profile (absent if
neither source yields one), the possibly-updated store, and whether a
remote query was issued. -/
def getProfile (st : Store) (sess : Option String)
    (remote : String → Option RemoteProfileRow) :
    Option UserProfile × Store × Bool :=
  let localHit : Option UserProfile :=
    match getUserKey KEYS.PROFILE sess with
    | some k =>
      match getItem st k with
      | some (.profile p) => if p.name ≠ "" then some p else none
      | _ => none
    | none => none
  match localHit with
  | some p => (some p, st, false)
  | none =>
    match sess with
    | none => (none, st, false)
    | some uid =>
      match remote uid with
      | none => (none, st, true)
      | some row =>
        let userProfile : UserProfile :=
          { name := jsOrStr row.name "User"
            age := jsOrInt row.age 0
            gender := some (jsOrStr row.gender "male")
            height := row.height_cm.orElse (fun _ => row.height)
            weight := row.weight_kg.orElse (fun _ => row.weight)
            avatarUri := none }
        match getUserKey KEYS.PROFILE sess with
        | some k => (some userProfile, setItem st k (.profile userProfile), true)
        | none => (some userProfile, st, true)

/-- StorageService.saveProfile (its local write; the remote sync is
best-effort and does not affect the store). -/
def saveProfile (st : Store) (sess : Option String) (p : UserProfile) : Store :=
  match getUserKey KEYS.PROFILE sess with
  | some k => setItem st k (.profile p)
  | none => st

/-- StorageService.clearAll: removes the tips, challenges, usage,
lifetime-stats and scans per-user keys and requests a full remote
reset (api.resetData = scans reset + profile reset). -/
def clearAll (st : Store) (sess : Option String) : Store × List ApiCall :=
  let keysToRemove :=
    [getUserKey KEYS.DAILY_TIPS_COMPLETED sess,
     getUserKey KEYS.CHALLENGES_COMPLETED sess,
     getUserKey KEYS.DAILY_USAGE sess,
     getUserKey KEYS.LIFETIME_STATS sess,
     getUserKey KEYS.SCANS sess].filterMap id
  (multiRemove st keysToRemove, [ApiCall.scansReset, ApiCall.profileReset])

/-- StorageService.clearHistoryOnly: removes only the tips and
challenges per-user keys and requests a remote scan-history reset. -/
def clearHistoryOnly (st : Store) (sess : Option String) : Store × List ApiCall :=
  let keysToRemove :=
    [getUserKey KEYS.DAILY_TIPS_COMPLETED sess,
     getUserKey KEYS.CHALLENGES_COMPLETED sess].filterMap id
  (multiRemove st keysToRemove, [ApiCall.scansReset])

/-- StorageService.getScans: the locally persisted scan list, empty
when no session, no data, or a parse failure. -/
def getScans (st : Store) (sess : Option String) : List ScanRecord :=
  match getUserKey KEYS.SCANS sess with
  | none => []
  | some k =>
    match getItem st k with
    | some (.scans l) => l
    | _ => []

/-- StorageService.addScan: unconditionally prepends the record to the
persisted list (no duplicate check in this function). -/
def addScan (st : Store) (sess : Option String) (scan : ScanRecord) : Store :=
  let scans := getScans st sess
  let newScans := scan :: scans
  match getUserKey KEYS.SCANS sess with
  | some k => setItem st k (.scans newScans)
  | none => st

/-- StorageService.getCompletedTipsToday. -/
def getCompletedTipsToday (env : Env) (st : Store) (sess : Option String) :
    List String :=
  match getUserKey KEYS.DAILY_TIPS_COMPLETED sess with
  | none => []
  | some k =>
    match getItem st k with
    | some (.tips date completed) => if date ≠ env.today then [] else completed
    | _ => []

/-- StorageService.toggleTipCompleted: flips membership of the tip id
and persists the new set stamped with today's date. -/
def toggleTipCompleted (env : Env) (st : Store) (sess : Option String)
    (tipId : String) : List String × Store :=
  let completed := getCompletedTipsToday env st sess
  let newCompleted :=
    if completed.contains tipId then completed.filter (fun i => i ≠ tipId)
    else completed ++ [tipId]
  match getUserKey KEYS.DAILY_TIPS_COMPLETED sess with
  | some k => (newCompleted, setItem st k (.tips env.today newCompleted))
  | none => (newCompleted, st)

/-- StorageService.getDailyUsageCount: lazy day-scoped read, 0 when no
session, no data, a stale date, or a parse failure. -/
def getDailyUsageCount (env : Env) (st : Store) (sess : Option String) : Nat :=
  match getUserKey KEYS.DAILY_USAGE sess with
  | none => 0
  | some k =>
    match getItem st k with
    | some (.usage date count _) => if date = env.today then count else 0
    | _ => 0

/-- StorageService.incrementDailyUsage: reads the (lazily reset)
current count, adds one, persists the blob stamped with today and now,
and returns the new count. -/
def incrementDailyUsage (env : Env) (st : Store) (sess : Option String) :
    Nat × Store :=
  let current := getDailyUsageCount env st sess
  let newCount := current + 1
  match getUserKey KEYS.DAILY_USAGE sess with
  | some k => (newCount, setItem st k (.usage env.today newCount env.now))
  | none => (newCount, st)

/-- StorageService.getLifetimeStats. -/
def getLifetimeStats (st : Store) (sess : Option String) : LifetimeStats :=
  match getUserKey KEYS.LIFETIME_STATS sess with
  | none => LIFETIME_DEFAULT
  | some k =>
    match getItem st k with
    | some (.lifetime s) => s
    | _ => LIFETIME_DEFAULT

/-- StorageService.updateLifetimeStats: totalScans + 1 unconditionally,
daysActive + 1 only when the stored lastScanDate differs from today's
device-local date string, then lastScanDate := today. -/
def updateLifetimeStats (env : Env) (st : Store) (sess : Option String) : Store :=
  let current := getLifetimeStats st sess
  let today := env.todayLocale
  let daysActive :=
    if current.lastScanDate ≠ today then current.daysActive + 1
    else current.daysActive
  let updated : LifetimeStats :=
    { totalScans := current.totalScans + 1
      daysActive := daysActive
      lastScanDate := today }
  match getUserKey KEYS.LIFETIME_STATS sess with
  | some k => setItem st k (.lifetime updated)
  | none => st

/-- StorageService.getWeeklyPlan over the two fetched remote responses;
either fetch failing makes Promise.all reject, which the surrounding
try/catch turns into an absent plan. -/
def getWeeklyPlan (env : Env) (planRes : Except Unit WeeklyPlanResp)
    (reportRes : Except Unit WeeklyReportResp) : Option WeeklyPlan :=
  match planRes, reportRes with
  | .ok planData, .ok reportData =>
    if planData.is_locked then none
    else
      match planData.weekly_routine with
      | none => none
      | some routine =>
        some
          { generatedAt := env.nowISO
            focusAreas := []
            exercises := routine.enum.map (fun p =>
              { id := "weekly_" ++ toString p.1
                title := p.2.name
                description := jsOrStr p.2.instructions "Follow instructions"
                duration := p.2.duration
                completed := false })
            report :=
              match reportData.is_locked, reportData.stats with
              | false, some s =>
                some
                  { averageScore := s.average_score
                    consistencyScore := s.consistency_score
                    strongestFeature := s.top_metric
                    weakestFeature := s.weakest_metric
                    stats :=
                      { symmetry := (s.metric_averages.lookup "symmetry").getD 0
                        jawline := (s.metric_averages.lookup "jawline").getD 0
                        proportions := (s.metric_averages.lookup "proportions").getD 0
                        skinClarity := (s.metric_averages.lookup "skin_clarity").getD 0
                        masculinity := (s.metric_averages.lookup "masculinity").getD 0
                        cheekbones := (s.metric_averages.lookup "cheekbones").getD 0
                        overall := s.average_score } }
              | _, _ => none }
  | _, _ => none

end StorageService

/-- getMorningRoutine: fetch+map of the daily routine; empty on lock,
absence, or any fetch error. -/
def getMorningRoutine (planRes : Except Unit DailyPlanResponse) : List DailyPlan :=
  match planRes with
  | .error _ => []
  | .ok plan =>
    if plan.is_locked.getD false then []
    else
      match plan.routine with
      | none => []
      | some routine =>
        routine.enum.map (fun p =>
          { id := "daily_" ++ toString p.1
            title := match p.2 with | .str s => s | .ex n _ _ => n
            description :=
              match p.2 with | .str _ => "Morning routine" | .ex _ i _ => i
            duration := match p.2 with | .str _ => "2 min" | .ex _ _ d => d
            completed := false })

namespace DataContext

/-- The setScans updater inside DataContext.addScan: prepend the new
record unless a record with the same id is already present. -/
def insertScan (prev : List ScanRecord) (newScan : ScanRecord) : List ScanRecord :=
  if prev.any (fun s => s.id = newScan.id) then prev else newScan :: prev

/-- A sequence of DataContext.addScan calls applied to an in-memory
scan list (each call applies `insertScan`). -/
def insertScans (prev : List ScanRecord) (records : List ScanRecord) :
    List ScanRecord :=
  records.foldl insertScan prev

/-- DataContext.addScan: the optimistic in-memory list update followed
by the unconditional persistent side effects (incrementDailyUsage then
updateLifetimeStats), returning the new list, the new daily count, the
refreshed lifetime-stats snapshot and the resulting store. -/
def addScan (env : Env) (st : Store) (sess : Option String)
    (scans : List ScanRecord) (newScan : ScanRecord) :
    List ScanRecord × Nat × LifetimeStats × Store :=
  let scans' := insertScan scans newScan
  let r := StorageService.incrementDailyUsage env st sess
  let st2 := StorageService.updateLifetimeStats env r.2 sess
  (scans', r.1, StorageService.getLifetimeStats st2 sess, st2)

/-- The JavaScript-Map deduplication used for todayScans: ids keep the
position of their first occurrence, each id maps to the value of its
last occurrence. -/
def jsMapDedup (l : List ScanRecord) : List ScanRecord :=
  ((l.map (fun s => s.id)).eraseDups).filterMap
    (fun i => l.reverse.find? (fun s => s.id = i))

/-- The todayScans derived value: today's scans, deduplicated by id. -/
def todayScans (env : Env) (scans : List ScanRecord) : List ScanRecord :=
  jsMapDedup (scans.filter (fun s => env.dsOf s.date = env.today))

/-- The effective daily-scan count used by the unlock refetch effect. -/
def effectiveCount (env : Env) (scans : List ScanRecord) (dailyScanCount : Nat) :
    Nat :=
  max (todayScans env scans).length dailyScanCount

/-- The condition under which the DataContext effect refetches the
daily routine (the unlock refetch trigger). -/
def routineRefetchTriggered (env : Env) (scans : List ScanRecord)
    (dailyScanCount : Nat) (dailyRoutine : List DailyPlan) : Prop :=
  effectiveCount env scans dailyScanCount ≥ 3 ∧ dailyRoutine = []

instance (env : Env) (scans : List ScanRecord) (dailyScanCount : Nat)
    (dailyRoutine : List DailyPlan) :
    Decidable (routineRefetchTriggered env scans dailyScanCount dailyRoutine) :=
  inferInstanceAs (Decidable (_ ∧ _))

end DataContext

namespace PlansScreen

/-- totalScans in PlansScreen: length of the full scan list. -/
def totalScans (scans : List ScanRecord) : Nat := scans.length

/-- uniqueDays in PlansScreen: number of distinct device-local date
strings among the scans. -/
def uniqueDays (env : Env) (scans : List ScanRecord) : Nat :=
  ((scans.map (fun s => env.dsOf s.date)).eraseDups).length

/-- canUnlockDaily in PlansScreen. -/
def canUnlockDaily (scans : List ScanRecord) : Bool :=
  totalScans scans ≥ 3

/-- canUnlockWeekly in PlansScreen. -/
def canUnlockWeekly (env : Env) (scans : List ScanRecord) : Bool :=
  uniqueDays env scans ≥ 5 && totalScans scans ≥ 15

end PlansScreen

/-- One persisted write operation of the storage layer. -/
inductive WriteOp where
  | saveProfile (p : UserProfile)
  | addScan (s : ScanRecord)
  | incrementDailyUsage
  | updateLifetimeStats
  | toggleTipCompleted (tipId : String)
  deriving Repr

/-- Apply one write operation to the store under a session. -/
def applyWrite (env : Env) (st : Store) (sess : Option String) (w : WriteOp) :
    Store :=
  match w with
  | .saveProfile p => StorageService.saveProfile st sess p
  | .addScan s => StorageService.addScan st sess s
  | .incrementDailyUsage => (StorageService.incrementDailyUsage env st sess).2
  | .updateLifetimeStats => StorageService.updateLifetimeStats env st sess
  | .toggleTipCompleted tipId =>
    (StorageService.toggleTipCompleted env st sess tipId).2

/-- Apply a sequence of write operations in order. -/
def applyWrites (env : Env) (st : Store) (sess : Option String)
    (ws : List WriteOp) : Store :=
  ws.foldl (fun s w => applyWrite env s sess w) st

/-- The tuple of every persisted read of the storage layer (the value
components only). -/
def readAll (env : Env) (st : Store) (sess : Option String)
    (remote : String → Option RemoteProfileRow) :
    Option UserProfile × List ScanRecord × Nat × LifetimeStats × List String :=
  ((StorageService.getProfile st sess remote).1,
   StorageService.getScans st sess,
   StorageService.getDailyUsageCount env st sess,
   StorageService.getLifetimeStats st sess,
   StorageService.getCompletedTipsToday env st sess)

/-- The base keys the storage layer namespaces per user. -/
def BASES : List String :=
  [KEYS.PROFILE, KEYS.DAILY_TIPS_COMPLETED, KEYS.CHALLENGES_COMPLETED,
   KEYS.DAILY_USAGE, KEYS.LIFETIME_STATS, KEYS.SCANS]

lemma charList_append_ne : ∀ (l1 l2 : List Char), l1.isPrefixOf l2 = false →
    l2.isPrefixOf l1 = false → ∀ x y : List Char, l1 ++ x ≠ l2 ++ y := by
  intro l1
  induction l1 with
  | nil => intro l2 h1 _ x y; simp [List.isPrefixOf] at h1
  | cons a t ih =>
    intro l2 h1 h2 x y
    cases l2 with
    | nil => simp [List.isPrefixOf] at h2
    | cons b s =>
      intro heq
      have hab : a = b := by
        have hh := congrArg List.head? heq
        simpa using hh
      subst hab
      have ht : t ++ x = s ++ y := by
        have hh := congrArg List.tail heq
        simpa using hh
      have h1' : t.isPrefixOf s = false := by
        simpa [List.isPrefixOf] using h1
      have h2' : s.isPrefixOf t = false := by
        simpa [List.isPrefixOf] using h2
      exact ih s h1' h2' x y ht

lemma bases_not_pref : ∀ p ∈ BASES, ∀ q ∈ BASES, p ≠ q →
    (p ++ "_").data.isPrefixOf ((q ++ "_").data) = false := by decide

lemma userKey_ne {p q : String} (hp : p ∈ BASES) (hq : q ∈ BASES)
    {u v : String} (h : p ≠ q ∨ u ≠ v) :
    p ++ "_" ++ u ≠ q ++ "_" ++ v := by
  by_cases hpq : p = q
  · subst hpq
    have huv : u ≠ v := h.resolve_left (fun hc => hc rfl)
    intro heq
    apply huv
    have hd := congrArg String.data heq
    rw [String.data_append, String.data_append] at hd
    have hdd := List.append_cancel_left hd
    cases u with
    | mk ud =>
      cases v with
      | mk vd => simp_all
  · intro heq
    have hd := congrArg String.data heq
    rw [String.data_append, String.data_append] at hd
    exact charList_append_ne (p ++ "_").data (q ++ "_").data
      (bases_not_pref p hp q hq hpq)
      (bases_not_pref q hq p hp (fun hc => hpq hc.symm)) u.data v.data hd

lemma getItem_setItem_ne (st : Store) (k k' : String) (v : StoredVal)
    (h : k ≠ k') : getItem (setItem st k v) k' = getItem st k' := by
  simp [setItem, getItem, h]

lemma applyWrite_some_eq (env : Env) (st : Store) (a : String) (w : WriteOp) :
    ∃ p ∈ BASES, ∃ v, applyWrite env st (some a) w = setItem st (p ++ "_" ++ a) v := by
  cases w with
  | saveProfile p =>
    exact ⟨KEYS.PROFILE, by simp [BASES], _, rfl⟩
  | addScan s =>
    exact ⟨KEYS.SCANS, by simp [BASES], _, rfl⟩
  | incrementDailyUsage =>
    exact ⟨KEYS.DAILY_USAGE, by simp [BASES], _, rfl⟩
  | updateLifetimeStats =>
    exact ⟨KEYS.LIFETIME_STATS, by simp [BASES], _, rfl⟩
  | toggleTipCompleted tipId =>
    exact ⟨KEYS.DAILY_TIPS_COMPLETED, by simp [BASES], _, rfl⟩

lemma getProfile_fst_congr (st st' : Store) (b : String)
    (remote : String → Option RemoteProfileRow)
    (h : getItem st' (KEYS.PROFILE ++ "_" ++ b) = getItem st (KEYS.PROFILE ++ "_" ++ b)) :
    (StorageService.getProfile st' (some b) remote).1 =
      (StorageService.getProfile st (some b) remote).1 := by
  simp only [StorageService.getProfile, getUserKey, Option.map_some', h]
  cases hx : getItem st (KEYS.PROFILE ++ "_" ++ b) with
  | none => cases remote b <;> rfl
  | some val =>
    cases val with
    | profile p =>
      by_cases hn : p.name = ""
      · simp only [hn, ne_eq, not_true_eq_false, if_false]
        cases remote b <;> rfl
      · simp only [ne_eq, hn, not_false_eq_true, if_true]
    | scans l => cases remote b <;> rfl
    | usage d c t => cases remote b <;> rfl
    | lifetime s => cases remote b <;> rfl
    | tips d c => cases remote b <;> rfl

lemma readAll_setItem_other (env : Env) (st : Store) (b : String)
    (remote : String → Option RemoteProfileRow) (k : String) (v : StoredVal)
    (hk : ∀ p ∈ BASES, k ≠ p ++ "_" ++ b) :
    readAll env (setItem st k v) (some b) remote = readAll env st (some b) remote := by
  have h1 := getItem_setItem_ne st k (KEYS.PROFILE ++ "_" ++ b) v
    (hk KEYS.PROFILE (by simp [BASES]))
  have h2 := getItem_setItem_ne st k (KEYS.DAILY_TIPS_COMPLETED ++ "_" ++ b) v
    (hk KEYS.DAILY_TIPS_COMPLETED (by simp [BASES]))
  have h4 := getItem_setItem_ne st k (KEYS.DAILY_USAGE ++ "_" ++ b) v
    (hk KEYS.DAILY_USAGE (by simp [BASES]))
  have h5 := getItem_setItem_ne st k (KEYS.LIFETIME_STATS ++ "_" ++ b) v
    (hk KEYS.LIFETIME_STATS (by simp [BASES]))
  have h6 := getItem_setItem_ne st k (KEYS.SCANS ++ "_" ++ b) v
    (hk KEYS.SCANS (by simp [BASES]))
  have hp := getProfile_fst_congr st (setItem st k v) b remote h1
  simp only [readAll, StorageService.getScans,
    StorageService.getDailyUsageCount, StorageService.getLifetimeStats,
    StorageService.getCompletedTipsToday, getUserKey, Option.map_some',
    hp, h2, h4, h5, h6]

lemma readAll_applyWrite (env : Env) (st : Store) (a b : String)
    (hab : a ≠ b) (w : WriteOp) (remote : String → Option RemoteProfileRow) :
    readAll env (applyWrite env st (some a) w) (some b) remote =
      readAll env st (some b) remote := by
  obtain ⟨p, hp, v, hw⟩ := applyWrite_some_eq env st a w
  rw [hw]
  apply readAll_setItem_other
  intro q hq
  exact userKey_ne hp hq (Or.inr hab)

/-- Claim C1: every persisted read and write of the Storage Service
first resolves the current user id into a per-user key; with no
session every read returns its absent/empty/zero default whatever the
store holds, and no sequence of writes performed under one user id can
change the result of any read performed under a different user id. -/
theorem C1_per_user_key_isolation :
    (∀ (env : Env) (st : Store) (remote : String → Option RemoteProfileRow),
      readAll env st none remote = (none, [], 0, LIFETIME_DEFAULT, [])) ∧
    (∀ (env : Env) (st : Store) (a b : String)
      (remote : String → Option RemoteProfileRow) (ws : List WriteOp),
      a ≠ b →
      readAll env (applyWrites env st (some a) ws) (some b) remote =
        readAll env st (some b) remote) := by
  constructor
  · intro env st remote
    rfl
  · intro env st a b remote ws hab
    induction ws generalizing st with
    | nil => rfl
    | cons w rest ih =>
      calc readAll env (applyWrites env (applyWrite env st (some a) w) (some a) rest)
            (some b) remote
          = readAll env (applyWrite env st (some a) w) (some b) remote := ih _
        _ = readAll env st (some b) remote := readAll_applyWrite env st a b hab w remote

/-- Sample environment for concrete witnesses: the device-local day is
Jan 1 2024 and scan dates are already toDateString-normalized. -/
def env0 : Env :=
  { today := "Mon Jan 01 2024"
    todayLocale := "1/1/2024"
    now := 1000
    nowISO := "2024-01-01T00:00:00.000Z"
    dsOf := fun s => s }

/-- Sample facial stats. -/
def stats0 : FacialStats := ⟨80, 81, 82, 83, 84, 85, 82⟩

/-- Sample lifestyle answers. -/
def life0 : Lifestyle := ⟨7, 2, "balanced", "light"⟩

/-- Sample profile. -/
def p0 : UserProfile :=
  { name := "Alex", age := 25, gender := some "male", height := some 180,
    weight := some 75, avatarUri := none }

/-- Sample remote profile table: empty. -/
def r0 : String → Option RemoteProfileRow := fun _ => none

/-- Sample scan dated today. -/
def scanA : ScanRecord :=
  { id := "sA", date := "Mon Jan 01 2024", imageUri := none, stats := stats0,
    lifestyle := life0 }

/-- A second sample scan dated today. -/
def scanB : ScanRecord :=
  { id := "sB", date := "Mon Jan 01 2024", imageUri := none, stats := stats0,
    lifestyle := life0 }

/-- Sample scan dated the previous day. -/
def scanOld : ScanRecord :=
  { id := "sOld", date := "Sun Dec 31 2023", imageUri := none, stats := stats0,
    lifestyle := life0 }

/-- A record sharing scanA's id but with different content. -/
def scanADup : ScanRecord :=
  { id := "sA", date := "Mon Jan 01 2024", imageUri := some "img", stats := stats0,
    lifestyle := life0 }

/-- Claim C1 witness: two concrete distinct users; a profile persisted
under user u1 is returned to u1 but invisible to u2's reads. -/
theorem C1_per_user_key_isolation_witness :
    ("u1" : String) ≠ "u2" ∧
    (StorageService.getProfile
      (applyWrites env0 [] (some "u1") [WriteOp.saveProfile p0]) (some "u1") r0).1 = some p0 ∧
    readAll env0 (applyWrites env0 [] (some "u1") [WriteOp.saveProfile p0]) (some "u2") r0 =
      readAll env0 [] (some "u2") r0 :=
  ⟨by decide, by decide,
    C1_per_user_key_isolation.2 env0 [] "u1" "u2" r0 [WriteOp.saveProfile p0] (by decide)⟩

lemma insertScan_mem_id (prev : List ScanRecord) (s : ScanRecord)
    (h : prev.any (fun r => r.id = s.id) = true) :
    DataContext.insertScan prev s = prev := by
  simp [DataContext.insertScan, h]

lemma insertScan_fresh (prev : List ScanRecord) (s : ScanRecord)
    (h : ¬ prev.any (fun r => r.id = s.id) = true) :
    DataContext.insertScan prev s = s :: prev := by
  simp only [DataContext.insertScan]
  rw [if_neg h]

lemma insertScan_id_nodup (prev : List ScanRecord) (s : ScanRecord)
    (h : (prev.map (fun r => r.id)).Nodup) :
    ((DataContext.insertScan prev s).map (fun r => r.id)).Nodup := by
  by_cases hm : prev.any (fun r => r.id = s.id) = true
  · rw [insertScan_mem_id prev s hm]; exact h
  · rw [insertScan_fresh prev s hm]
    simp only [List.map_cons, List.nodup_cons]
    refine ⟨?_, h⟩
    intro hmem
    apply hm
    simp only [List.any_eq_true, decide_eq_true_eq]
    obtain ⟨r, hr, hid⟩ := List.mem_map.mp hmem
    exact ⟨r, hr, hid⟩

lemma insertScans_id_nodup (records : List ScanRecord) :
    ∀ (prev : List ScanRecord), (prev.map (fun r => r.id)).Nodup →
    ((DataContext.insertScans prev records).map (fun r => r.id)).Nodup := by
  induction records with
  | nil => intro prev h; exact h
  | cons r rs ih =>
    intro prev h
    exact ih (DataContext.insertScan prev r) (insertScan_id_nodup prev r h)

lemma insertScans_all_fresh (records : List ScanRecord) :
    ∀ (prev : List ScanRecord), (records.map (fun r => r.id)).Nodup →
    (∀ r ∈ records, ∀ p ∈ prev, p.id ≠ r.id) →
    DataContext.insertScans prev records = records.reverse ++ prev := by
  induction records with
  | nil => intro prev _ _; rfl
  | cons r rs ih =>
    intro prev hnd hdisj
    have hfresh : ¬ prev.any (fun q => q.id = r.id) = true := by
      simp only [List.any_eq_true, decide_eq_true_eq]
      rintro ⟨p, hp, hid⟩
      exact hdisj r (by simp) p hp hid
    have hstep : DataContext.insertScans prev (r :: rs) =
        DataContext.insertScans (r :: prev) rs := by
      simp only [DataContext.insertScans, List.foldl_cons,
        insertScan_fresh prev r hfresh]
    rw [hstep]
    have hnd2 := hnd
    rw [List.map_cons] at hnd2
    obtain ⟨hrid, hnd'⟩ := List.nodup_cons.mp hnd2
    have hdisj' : ∀ q ∈ rs, ∀ p ∈ r :: prev, p.id ≠ q.id := by
      intro q hq p hp
      rcases List.mem_cons.mp hp with hpr | hpp
      · subst hpr
        intro hcontra
        exact hrid (List.mem_map.mpr ⟨q, hq, hcontra.symm⟩)
      · exact hdisj q (by simp [hq]) p hpp
    rw [ih (r :: prev) hnd' hdisj']
    simp

/-- Claim C2: the DataContext scan insertion is idempotent by id and
prepends; a call with an id already present leaves the in-memory list
unchanged, a fresh id is placed at the front, and any sequence of
addScan calls with pairwise-distinct fresh ids starting from the empty
list yields exactly the calls newest-first, with the full length and no
duplicate ids; moreover no sequence of calls (repeats included) can
introduce a duplicate id. -/
theorem C2_addScan_idempotent_prepend :
    (∀ (prev : List ScanRecord) (s : ScanRecord),
      (prev.any (fun r => r.id = s.id) = true →
        DataContext.insertScan prev s = prev) ∧
      (¬ prev.any (fun r => r.id = s.id) = true →
        DataContext.insertScan prev s = s :: prev)) ∧
    (∀ (records : List ScanRecord), (records.map (fun r => r.id)).Nodup →
      DataContext.insertScans [] records = records.reverse ∧
      (DataContext.insertScans [] records).length = records.length ∧
      ((DataContext.insertScans [] records).map (fun r => r.id)).Nodup) ∧
    (∀ (records prev : List ScanRecord), (prev.map (fun r => r.id)).Nodup →
      ((DataContext.insertScans prev records).map (fun r => r.id)).Nodup) := by
  refine ⟨fun prev s => ⟨insertScan_mem_id prev s, insertScan_fresh prev s⟩,
    fun records hnd => ?_, fun records prev h => insertScans_id_nodup records prev h⟩
  have hall := insertScans_all_fresh records [] hnd (by simp)
  rw [List.append_nil] at hall
  refine ⟨hall, ?_, ?_⟩
  · rw [hall, List.length_reverse]
  · exact insertScans_id_nodup records [] (by simp)

/-- Claim C2 witness: adding scanA, scanB, then a record repeating
scanA's id yields the two-element list newest-first with scanA's
original record retained. -/
theorem C2_addScan_idempotent_prepend_witness :
    ([scanA, scanB].map (fun r => r.id)).Nodup ∧
    DataContext.insertScans [] [scanA, scanB] = [scanB, scanA] ∧
    ([scanB, scanA].any (fun r => r.id = scanADup.id) = true) ∧
    DataContext.insertScan [scanB, scanA] scanADup = [scanB, scanA] := by
  refine ⟨by decide, ?_, by decide, ?_⟩
  · exact ((C2_addScan_idempotent_prepend.2.1 [scanA, scanB] (by decide)).1).trans
      (by decide)
  · exact (C2_addScan_idempotent_prepend.1 [scanB, scanA] scanADup).1 (by decide)

/-- N successive incrementDailyUsage calls. -/
def incrementN (env : Env) (st : Store) (sess : Option String) : Nat → Store
  | 0 => st
  | n + 1 =>
    (StorageService.incrementDailyUsage env (incrementN env st sess n) sess).2

lemma getDailyUsageCount_increment (env : Env) (st : Store) (u : String) :
    StorageService.getDailyUsageCount env
      (StorageService.incrementDailyUsage env st (some u)).2 (some u) =
    StorageService.getDailyUsageCount env st (some u) + 1 := by
  simp [StorageService.incrementDailyUsage, StorageService.getDailyUsageCount,
    getUserKey, setItem, getItem]

lemma getDailyUsageCount_incrementN (env : Env) (st : Store) (u : String)
    (n : Nat) :
    StorageService.getDailyUsageCount env (incrementN env st (some u) n) (some u) =
    StorageService.getDailyUsageCount env st (some u) + n := by
  induction n with
  | zero => rfl
  | succ n ih =>
    simp only [incrementN, getDailyUsageCount_increment, ih]
    omega

/-- Claim C3: the daily usage counter is day-scoped with lazy reset:
starting from a state that reads 0, N increments within one device
day read back as N; a stored blob whose date differs from today reads
as 0 with no reset write; and after increments performed on one day,
the first read on a different day returns 0. -/
theorem C3_daily_usage_lazy_reset :
    (∀ (env : Env) (st : Store) (u : String) (n : Nat),
      StorageService.getDailyUsageCount env st (some u) = 0 →
      StorageService.getDailyUsageCount env (incrementN env st (some u) n) (some u) = n) ∧
    (∀ (env : Env) (st : Store) (u d : String) (c t : Nat),
      d ≠ env.today →
      getItem st (KEYS.DAILY_USAGE ++ "_" ++ u) = some (.usage d c t) →
      StorageService.getDailyUsageCount env st (some u) = 0) ∧
    (∀ (env env' : Env) (st : Store) (u : String) (n : Nat),
      0 < n → env'.today ≠ env.today →
      StorageService.getDailyUsageCount env' (incrementN env st (some u) n) (some u) = 0) := by
  refine ⟨?_, ?_, ?_⟩
  · intro env st u n h
    rw [getDailyUsageCount_incrementN, h, Nat.zero_add]
  · intro env st u d c t hd hit
    simp [StorageService.getDailyUsageCount, getUserKey, hit, hd]
  · intro env env' st u n hn hd
    cases n with
    | zero => omega
    | succ m =>
      have hne : ¬ env.today = env'.today := fun hc => hd hc.symm
      simp [incrementN, StorageService.incrementDailyUsage,
        StorageService.getDailyUsageCount, getUserKey, setItem, getItem, hne]

/-- Claim C3 witness: from an empty store two same-day increments read
back as 2; a stale-dated blob reads as 0; and a next-day read after one
increment returns 0. -/
theorem C3_daily_usage_lazy_reset_witness :
    (StorageService.getDailyUsageCount env0 [] (some "u1") = 0 ∧
      StorageService.getDailyUsageCount env0 (incrementN env0 [] (some "u1") 2) (some "u1") = 2) ∧
    (("Sun Dec 31 2023" : String) ≠ env0.today ∧
      StorageService.getDailyUsageCount env0
        [(KEYS.DAILY_USAGE ++ "_" ++ "u1", StoredVal.usage "Sun Dec 31 2023" 7 5)]
        (some "u1") = 0) ∧
    ((0 : Nat) < 1 ∧ ("Tue Jan 02 2024" : String) ≠ env0.today ∧
      StorageService.getDailyUsageCount
        { env0 with today := "Tue Jan 02 2024" }
        (incrementN env0 [] (some "u1") 1) (some "u1") = 0) := by
  refine ⟨⟨by decide, C3_daily_usage_lazy_reset.1 env0 [] "u1" 2 (by decide)⟩,
    ⟨by decide, C3_daily_usage_lazy_reset.2.1 env0 _ "u1" "Sun Dec 31 2023" 7 5
      (by decide) (by decide)⟩,
    ⟨by decide, by decide, C3_daily_usage_lazy_reset.2.2 env0
      { env0 with today := "Tue Jan 02 2024" } [] "u1" 1 (by decide) (by decide)⟩⟩

lemma getLifetimeStats_update (env : Env) (st : Store) (u : String) :
    StorageService.getLifetimeStats
      (StorageService.updateLifetimeStats env st (some u)) (some u) =
    { totalScans := (StorageService.getLifetimeStats st (some u)).totalScans + 1
      daysActive :=
        if (StorageService.getLifetimeStats st (some u)).lastScanDate ≠ env.todayLocale
        then (StorageService.getLifetimeStats st (some u)).daysActive + 1
        else (StorageService.getLifetimeStats st (some u)).daysActive
      lastScanDate := env.todayLocale } := by
  simp [StorageService.updateLifetimeStats, StorageService.getLifetimeStats,
    getUserKey, setItem, getItem]

/-- Claim C4: updateLifetimeStats increments totalScans by exactly 1
unconditionally, increments daysActive by 1 exactly when the stored
lastScanDate differs from today's device-local date string, overwrites
lastScanDate with today, and two calls on the same day add 2 to
totalScans but at most 1 to daysActive. -/
theorem C4_update_lifetime_stats (env : Env) (st : Store) (u : String) :
    (StorageService.getLifetimeStats
        (StorageService.updateLifetimeStats env st (some u)) (some u)).totalScans =
      (StorageService.getLifetimeStats st (some u)).totalScans + 1 ∧
    (StorageService.getLifetimeStats
        (StorageService.updateLifetimeStats env st (some u)) (some u)).daysActive =
      (if (StorageService.getLifetimeStats st (some u)).lastScanDate ≠ env.todayLocale
       then (StorageService.getLifetimeStats st (some u)).daysActive + 1
       else (StorageService.getLifetimeStats st (some u)).daysActive) ∧
    (StorageService.getLifetimeStats
        (StorageService.updateLifetimeStats env st (some u)) (some u)).lastScanDate =
      env.todayLocale ∧
    (StorageService.getLifetimeStats
        (StorageService.updateLifetimeStats env
          (StorageService.updateLifetimeStats env st (some u)) (some u)) (some u)).totalScans =
      (StorageService.getLifetimeStats st (some u)).totalScans + 2 ∧
    (StorageService.getLifetimeStats
        (StorageService.updateLifetimeStats env
          (StorageService.updateLifetimeStats env st (some u)) (some u)) (some u)).daysActive ≤
      (StorageService.getLifetimeStats st (some u)).daysActive + 1 := by
  have h1 := getLifetimeStats_update env st u
  have h2 := getLifetimeStats_update env
    (StorageService.updateLifetimeStats env st (some u)) u
  rw [h1] at h2
  refine ⟨by rw [h1], by rw [h1], by rw [h1], by rw [h2], ?_⟩
  rw [h2]
  simp only [ne_eq, not_true_eq_false, if_false]
  split <;> omega

lemma getItem_multiRemove_mem (st : Store) (ks : List String) (k : String)
    (h : k ∈ ks) : getItem (multiRemove st ks) k = none := by
  induction st with
  | nil => rfl
  | cons kv rest ih =>
    obtain ⟨k', v⟩ := kv
    by_cases hk : k' ∈ ks
    · simpa [multiRemove, List.filter_cons, hk] using ih
    · have hne : k' ≠ k := by
        intro he
        subst he
        exact hk h
      simpa [multiRemove, List.filter_cons, hk, getItem, hne] using ih

lemma getItem_multiRemove_not_mem (st : Store) (ks : List String) (k : String)
    (h : k ∉ ks) : getItem (multiRemove st ks) k = getItem st k := by
  induction st with
  | nil => rfl
  | cons kv rest ih =>
    obtain ⟨k', v⟩ := kv
    by_cases hk : k' ∈ ks
    · have hne : k' ≠ k := by
        intro he
        subst he
        exact h hk
      simpa [multiRemove, List.filter_cons, hk, getItem, hne] using ih
    · by_cases he : k' = k
      · simp [multiRemove, List.filter_cons, hk, getItem, he, h]
      · simpa [multiRemove, List.filter_cons, hk, getItem, he] using ih

/-- Claim C5 counterexample: a store holding only user u1's profile is
returned unchanged by clearAll, so the local profile key is still
present (and getProfile still returns the profile) after clearAll,
contradicting the claim that clearAll removes the profile key. -/
theorem C5_counterexample :
    (StorageService.clearAll
        [(KEYS.PROFILE ++ "_" ++ "u1", StoredVal.profile p0)] (some "u1")).1 =
      [(KEYS.PROFILE ++ "_" ++ "u1", StoredVal.profile p0)] ∧
    getItem
      (StorageService.clearAll
        [(KEYS.PROFILE ++ "_" ++ "u1", StoredVal.profile p0)] (some "u1")).1
      (KEYS.PROFILE ++ "_" ++ "u1") = some (StoredVal.profile p0) ∧
    (StorageService.getProfile
      (StorageService.clearAll
        [(KEYS.PROFILE ++ "_" ++ "u1", StoredVal.profile p0)] (some "u1")).1
      (some "u1") r0).1 = some p0 := by
  refine ⟨by decide, by decide, by decide⟩

lemma profile_key_not_in_clearAll_keys (u : String) :
    (KEYS.PROFILE ++ "_" ++ u) ∉
      [KEYS.DAILY_TIPS_COMPLETED ++ "_" ++ u, KEYS.CHALLENGES_COMPLETED ++ "_" ++ u,
       KEYS.DAILY_USAGE ++ "_" ++ u, KEYS.LIFETIME_STATS ++ "_" ++ u,
       KEYS.SCANS ++ "_" ++ u] := by
  intro hmem
  have hb : KEYS.PROFILE ∈ BASES := by simp [BASES]
  simp only [List.mem_cons, List.not_mem_nil, or_false] at hmem
  rcases hmem with h | h | h | h | h
  · exact userKey_ne hb (by simp [BASES]) (Or.inl (by decide)) h
  · exact userKey_ne hb (by simp [BASES]) (Or.inl (by decide)) h
  · exact userKey_ne hb (by simp [BASES]) (Or.inl (by decide)) h
  · exact userKey_ne hb (by simp [BASES]) (Or.inl (by decide)) h
  · exact userKey_ne hb (by simp [BASES]) (Or.inl (by decide)) h

/-- Claim C5 as amended: clearAll removes the tips, challenges, usage,
lifetime-stats and scans per-user keys and requests a full remote
reset, but leaves the locally stored profile key untouched;
clearHistoryOnly removes only the tips and challenges keys, requests
only a remote scan-history reset, and preserves the profile (and the
usage, lifetime-stats and scans keys). -/
theorem C5_clear_operations (st : Store) (u : String) :
    (getItem (StorageService.clearAll st (some u)).1
      (KEYS.DAILY_TIPS_COMPLETED ++ "_" ++ u) = none ∧
     getItem (StorageService.clearAll st (some u)).1
      (KEYS.CHALLENGES_COMPLETED ++ "_" ++ u) = none ∧
     getItem (StorageService.clearAll st (some u)).1
      (KEYS.DAILY_USAGE ++ "_" ++ u) = none ∧
     getItem (StorageService.clearAll st (some u)).1
      (KEYS.LIFETIME_STATS ++ "_" ++ u) = none ∧
     getItem (StorageService.clearAll st (some u)).1
      (KEYS.SCANS ++ "_" ++ u) = none ∧
     getItem (StorageService.clearAll st (some u)).1
      (KEYS.PROFILE ++ "_" ++ u) = getItem st (KEYS.PROFILE ++ "_" ++ u) ∧
     (StorageService.clearAll st (some u)).2 =
      [ApiCall.scansReset, ApiCall.profileReset]) ∧
    (getItem (StorageService.clearHistoryOnly st (some u)).1
      (KEYS.DAILY_TIPS_COMPLETED ++ "_" ++ u) = none ∧
     getItem (StorageService.clearHistoryOnly st (some u)).1
      (KEYS.CHALLENGES_COMPLETED ++ "_" ++ u) = none ∧
     getItem (StorageService.clearHistoryOnly st (some u)).1
      (KEYS.PROFILE ++ "_" ++ u) = getItem st (KEYS.PROFILE ++ "_" ++ u) ∧
     getItem (StorageService.clearHistoryOnly st (some u)).1
      (KEYS.DAILY_USAGE ++ "_" ++ u) = getItem st (KEYS.DAILY_USAGE ++ "_" ++ u) ∧
     getItem (StorageService.clearHistoryOnly st (some u)).1
      (KEYS.LIFETIME_STATS ++ "_" ++ u) = getItem st (KEYS.LIFETIME_STATS ++ "_" ++ u) ∧
     getItem (StorageService.clearHistoryOnly st (some u)).1
      (KEYS.SCANS ++ "_" ++ u) = getItem st (KEYS.SCANS ++ "_" ++ u) ∧
     (StorageService.clearHistoryOnly st (some u)).2 = [ApiCall.scansReset]) := by
  have hca : (StorageService.clearAll st (some u)).1 =
      multiRemove st
        [KEYS.DAILY_TIPS_COMPLETED ++ "_" ++ u, KEYS.CHALLENGES_COMPLETED ++ "_" ++ u,
         KEYS.DAILY_USAGE ++ "_" ++ u, KEYS.LIFETIME_STATS ++ "_" ++ u,
         KEYS.SCANS ++ "_" ++ u] := rfl
  have hch : (StorageService.clearHistoryOnly st (some u)).1 =
      multiRemove st
        [KEYS.DAILY_TIPS_COMPLETED ++ "_" ++ u,
         KEYS.CHALLENGES_COMPLETED ++ "_" ++ u] := rfl
  have hpq : ∀ p ∈ BASES, ∀ q ∈ BASES, p ≠ q →
      (p ++ "_" ++ u) ≠ (q ++ "_" ++ u) := by
    intro p hp q hq hne
    exact userKey_ne hp hq (Or.inl hne)
  refine ⟨⟨?_, ?_, ?_, ?_, ?_, ?_, rfl⟩, ⟨?_, ?_, ?_, ?_, ?_, ?_, rfl⟩⟩
  · rw [hca]; exact getItem_multiRemove_mem _ _ _ (by simp)
  · rw [hca]; exact getItem_multiRemove_mem _ _ _ (by simp)
  · rw [hca]; exact getItem_multiRemove_mem _ _ _ (by simp)
  · rw [hca]; exact getItem_multiRemove_mem _ _ _ (by simp)
  · rw [hca]; exact getItem_multiRemove_mem _ _ _ (by simp)
  · rw [hca]
    exact getItem_multiRemove_not_mem _ _ _ (profile_key_not_in_clearAll_keys u)
  · rw [hch]; exact getItem_multiRemove_mem _ _ _ (by simp)
  · rw [hch]; exact getItem_multiRemove_mem _ _ _ (by simp)
  · rw [hch]
    refine getItem_multiRemove_not_mem _ _ _ ?_
    intro hmem
    simp only [List.mem_cons, List.not_mem_nil, or_false] at hmem
    rcases hmem with h | h
    · exact hpq KEYS.PROFILE (by simp [BASES]) KEYS.DAILY_TIPS_COMPLETED
        (by simp [BASES]) (by decide) h
    · exact hpq KEYS.PROFILE (by simp [BASES]) KEYS.CHALLENGES_COMPLETED
        (by simp [BASES]) (by decide) h
  · rw [hch]
    refine getItem_multiRemove_not_mem _ _ _ ?_
    intro hmem
    simp only [List.mem_cons, List.not_mem_nil, or_false] at hmem
    rcases hmem with h | h
    · exact hpq KEYS.DAILY_USAGE (by simp [BASES]) KEYS.DAILY_TIPS_COMPLETED
        (by simp [BASES]) (by decide) h
    · exact hpq KEYS.DAILY_USAGE (by simp [BASES]) KEYS.CHALLENGES_COMPLETED
        (by simp [BASES]) (by decide) h
  · rw [hch]
    refine getItem_multiRemove_not_mem _ _ _ ?_
    intro hmem
    simp only [List.mem_cons, List.not_mem_nil, or_false] at hmem
    rcases hmem with h | h
    · exact hpq KEYS.LIFETIME_STATS (by simp [BASES]) KEYS.DAILY_TIPS_COMPLETED
        (by simp [BASES]) (by decide) h
    · exact hpq KEYS.LIFETIME_STATS (by simp [BASES]) KEYS.CHALLENGES_COMPLETED
        (by simp [BASES]) (by decide) h
  · rw [hch]
    refine getItem_multiRemove_not_mem _ _ _ ?_
    intro hmem
    simp only [List.mem_cons, List.not_mem_nil, or_false] at hmem
    rcases hmem with h | h
    · exact hpq KEYS.SCANS (by simp [BASES]) KEYS.DAILY_TIPS_COMPLETED
        (by simp [BASES]) (by decide) h
    · exact hpq KEYS.SCANS (by simp [BASES]) KEYS.CHALLENGES_COMPLETED
        (by simp [BASES]) (by decide) h

/-- A generated scan with a synthetic id, dated by day index. -/
def mkScan (i : Nat) (d : String) : ScanRecord :=
  { id := "s" ++ toString i, date := d, imageUri := none, stats := stats0,
    lifestyle := life0 }

/-- dayCount distinct days with perDay scans each. -/
def scansGrid (dayCount perDay : Nat) : List ScanRecord :=
  (List.range dayCount).flatMap (fun d =>
    (List.range perDay).map (fun j => mkScan (d * perDay + j) ("day" ++ toString d)))

/-- Three scans all dated the previous day. -/
def scansYesterday : List ScanRecord :=
  [mkScan 0 "Sun Dec 31 2023", mkScan 1 "Sun Dec 31 2023", mkScan 2 "Sun Dec 31 2023"]

/-- Claim C6 counterexample: with three scans all dated yesterday and a
persisted daily count of 0, the Plans screen daily gate is unlocked
even though max(todayScans.length, dailyScanCount) = 0 < 3 — the daily
gate is computed from the total scan count, not from the claimed
max formula. -/
theorem C6_counterexample :
    PlansScreen.canUnlockDaily scansYesterday = true ∧
    DataContext.effectiveCount env0 scansYesterday 0 = 0 ∧
    ¬ DataContext.effectiveCount env0 scansYesterday 0 ≥ 3 := by
  refine ⟨by decide, by decide, by decide⟩

/-- Claim C6 as amended: the Plans screen daily gate holds exactly when
the total scan-list length is at least 3 (today-ness is not consulted);
the formula max(todayScans.length, dailyScanCount) >= 3 is instead the
trigger of the DataContext routine-refetch effect (together with the
routine being empty); the weekly gate holds exactly when distinct
device-local active days >= 5 and total scans >= 15, so 4 days with 20
scans and 5 days with 10 scans are locked while 5 days with 15 scans
are unlocked. -/
theorem C6_unlock_gates (env : Env) (scans : List ScanRecord)
    (dailyCount : Nat) (dailyRoutine : List DailyPlan) :
    (PlansScreen.canUnlockDaily scans = true ↔ scans.length ≥ 3) ∧
    (PlansScreen.canUnlockWeekly env scans = true ↔
      (PlansScreen.uniqueDays env scans ≥ 5 ∧ scans.length ≥ 15)) ∧
    (DataContext.routineRefetchTriggered env scans dailyCount dailyRoutine ↔
      (max (DataContext.todayScans env scans).length dailyCount ≥ 3 ∧
        dailyRoutine = [])) ∧
    (PlansScreen.uniqueDays env scans = 4 → scans.length = 20 →
      PlansScreen.canUnlockWeekly env scans = false) ∧
    (PlansScreen.uniqueDays env scans = 5 → scans.length = 10 →
      PlansScreen.canUnlockWeekly env scans = false) ∧
    (PlansScreen.uniqueDays env scans = 5 → scans.length = 15 →
      PlansScreen.canUnlockWeekly env scans = true) := by
  refine ⟨?_, ?_, Iff.rfl, ?_, ?_, ?_⟩
  · simp [PlansScreen.canUnlockDaily, PlansScreen.totalScans]
  · simp [PlansScreen.canUnlockWeekly, PlansScreen.totalScans]
  · intro hd hs
    simp [PlansScreen.canUnlockWeekly, PlansScreen.totalScans, hd, hs]
  · intro hd hs
    simp [PlansScreen.canUnlockWeekly, PlansScreen.totalScans, hd, hs]
  · intro hd hs
    simp [PlansScreen.canUnlockWeekly, PlansScreen.totalScans, hd, hs]

/-- Claim C6 witness: the three weekly-gate scenarios on concrete scan
lists (4 days x 5 scans, 5 days x 2 scans, 5 days x 3 scans). -/
theorem C6_unlock_gates_witness :
    (PlansScreen.uniqueDays env0 (scansGrid 4 5) = 4 ∧
      (scansGrid 4 5).length = 20 ∧
      PlansScreen.canUnlockWeekly env0 (scansGrid 4 5) = false) ∧
    (PlansScreen.uniqueDays env0 (scansGrid 5 2) = 5 ∧
      (scansGrid 5 2).length = 10 ∧
      PlansScreen.canUnlockWeekly env0 (scansGrid 5 2) = false) ∧
    (PlansScreen.uniqueDays env0 (scansGrid 5 3) = 5 ∧
      (scansGrid 5 3).length = 15 ∧
      PlansScreen.canUnlockWeekly env0 (scansGrid 5 3) = true) := by
  refine ⟨⟨by decide, by decide,
      (C6_unlock_gates env0 (scansGrid 4 5) 0 []).2.2.2.1 (by decide) (by decide)⟩,
    ⟨by decide, by decide,
      (C6_unlock_gates env0 (scansGrid 5 2) 0 []).2.2.2.2.1 (by decide) (by decide)⟩,
    ⟨by decide, by decide,
      (C6_unlock_gates env0 (scansGrid 5 3) 0 []).2.2.2.2.2 (by decide) (by decide)⟩⟩

/-- The local profile cache misses for user u: the per-user profile key
holds nothing, a non-profile-shaped blob, or a profile whose name is
empty. -/
def localProfileMiss (st : Store) (u : String) : Prop :=
  match getItem st (KEYS.PROFILE ++ "_" ++ u) with
  | some (.profile q) => q.name = ""
  | some _ => True
  | none => True

instance (st : Store) (u : String) : Decidable (localProfileMiss st u) := by
  unfold localProfileMiss
  rcases getItem st (KEYS.PROFILE ++ "_" ++ u) with _ | val
  · exact inferInstanceAs (Decidable True)
  · cases val
    · exact inferInstanceAs (Decidable (_ = _))
    · exact inferInstanceAs (Decidable True)
    · exact inferInstanceAs (Decidable True)
    · exact inferInstanceAs (Decidable True)
    · exact inferInstanceAs (Decidable True)

/-- Claim C7: getProfile returns the cached profile with no remote call
and no store write when the cache holds a profile with non-empty name;
on a local miss it queries the remote row for the current user,
normalizes it (name/age/gender with JS-falsy defaults, height and
weight accepting both column names preferring the canonical
height_cm/weight_kg), writes the normalized profile back to the local
cache and returns it; and when the remote row is also absent it
returns absent. -/
theorem C7_getProfile (st : Store) (u : String)
    (remote : String → Option RemoteProfileRow) :
    (∀ p : UserProfile,
      getItem st (KEYS.PROFILE ++ "_" ++ u) = some (.profile p) → p.name ≠ "" →
      StorageService.getProfile st (some u) remote = (some p, st, false)) ∧
    (localProfileMiss st u →
      (remote u = none →
        StorageService.getProfile st (some u) remote = (none, st, true)) ∧
      (∀ row, remote u = some row →
        StorageService.getProfile st (some u) remote =
          (some
            { name := jsOrStr row.name "User"
              age := jsOrInt row.age 0
              gender := some (jsOrStr row.gender "male")
              height := row.height_cm.orElse (fun _ => row.height)
              weight := row.weight_kg.orElse (fun _ => row.weight)
              avatarUri := none },
           setItem st (KEYS.PROFILE ++ "_" ++ u)
            (.profile
              { name := jsOrStr row.name "User"
                age := jsOrInt row.age 0
                gender := some (jsOrStr row.gender "male")
                height := row.height_cm.orElse (fun _ => row.height)
                weight := row.weight_kg.orElse (fun _ => row.weight)
                avatarUri := none }),
           true))) := by
  constructor
  · intro p hit hname
    simp [StorageService.getProfile, getUserKey, hit, hname]
  · intro hmiss
    have hlocal :
        (match getItem st (KEYS.PROFILE ++ "_" ++ u) with
          | some (.profile q) => if q.name ≠ "" then some q else none
          | _ => none) = (none : Option UserProfile) := by
      unfold localProfileMiss at hmiss
      rcases hx : getItem st (KEYS.PROFILE ++ "_" ++ u) with _ | val
      · rfl
      · cases val with
        | profile q =>
          rw [hx] at hmiss
          simp [hmiss]
        | scans l => rfl
        | usage d c t => rfl
        | lifetime s => rfl
        | tips d c => rfl
    simp only [ne_eq, ite_not] at hlocal
    constructor
    · intro hr
      simp [StorageService.getProfile, getUserKey, hlocal, hr]
    · intro row hr
      simp [StorageService.getProfile, getUserKey, hlocal, hr]

/-- Claim C7 witness: a cached profile is returned with no remote call;
from an empty cache a remote row carrying only the alternate height
column is normalized (height taken from the alternate name, weight
from the canonical one) and written back; with neither source the
result is absent. -/
theorem C7_getProfile_witness :
    (getItem [(KEYS.PROFILE ++ "_" ++ "u1", StoredVal.profile p0)]
        (KEYS.PROFILE ++ "_" ++ "u1") = some (StoredVal.profile p0) ∧
      p0.name ≠ "" ∧
      StorageService.getProfile [(KEYS.PROFILE ++ "_" ++ "u1", StoredVal.profile p0)]
        (some "u1") r0 =
        (some p0, [(KEYS.PROFILE ++ "_" ++ "u1", StoredVal.profile p0)], false)) ∧
    (localProfileMiss [] "u1" ∧
      StorageService.getProfile [] (some "u1")
        (fun _ => some
          { name := some "Remo", age := some 30, gender := none,
            height_cm := none, height := some 178, weight_kg := some 70,
            weight := some 68 }) =
        (some { name := "Remo", age := 30, gender := some "male",
                height := some 178, weight := some 70, avatarUri := none },
         [(KEYS.PROFILE ++ "_" ++ "u1",
           StoredVal.profile
            { name := "Remo", age := 30, gender := some "male",
              height := some 178, weight := some 70, avatarUri := none })],
         true)) ∧
    (StorageService.getProfile [] (some "u1") r0 = (none, [], true)) := by
  refine ⟨⟨by decide, by decide,
      (C7_getProfile [(KEYS.PROFILE ++ "_" ++ "u1", StoredVal.profile p0)] "u1" r0).1
        p0 (by decide) (by decide)⟩,
    ⟨by decide, ?_⟩, ?_⟩
  · have h := (C7_getProfile [] "u1"
      (fun _ => some
        { name := some "Remo", age := some 30, gender := none,
          height_cm := none, height := some 178, weight_kg := some 70,
          weight := some 68 })).2 (by decide)
    exact (h.2 _ rfl).trans (by decide)
  · exact ((C7_getProfile [] "u1" r0).2 (by decide)).1 rfl

lemma enum_map_weekly_ids (routine : List RemoteExercise) :
    (routine.enum.map (fun q => "weekly_" ++ toString q.1)) =
      (List.range routine.length).map (fun i => "weekly_" ++ toString i) := by
  have h1 : (routine.enum.map (fun q => "weekly_" ++ toString q.1)) =
      (routine.enum.map Prod.fst).map (fun i => "weekly_" ++ toString i) := by
    rw [List.map_map]
    rfl
  rw [h1, List.enum_map_fst]

/-- Claim C8: getWeeklyPlan is absent whenever the plan response is
locked, whatever the report response (even a failed one); when
unlocked with a routine, exercises get synthetic ids weekly_<index>,
and the aggregate report is attached exactly when the report response
is unlocked and carries stats, each per-metric average read from the
snake_case record with default 0. -/
theorem C8_getWeeklyPlan (env : Env) (p : WeeklyPlanResp) :
    (∀ rr : Except Unit WeeklyReportResp, p.is_locked = true →
      StorageService.getWeeklyPlan env (.ok p) rr = none) ∧
    (∀ (routine : List RemoteExercise) (rd : WeeklyReportResp),
      p.is_locked = false → p.weekly_routine = some routine →
      ((StorageService.getWeeklyPlan env (.ok p) (.ok rd)).map
          (fun w => w.exercises.map (fun e => e.id)) =
        some ((List.range routine.length).map (fun i => "weekly_" ++ toString i))) ∧
      (rd.is_locked = true →
        (StorageService.getWeeklyPlan env (.ok p) (.ok rd)).map
          (fun w => w.report) = some none) ∧
      (rd.stats = none →
        (StorageService.getWeeklyPlan env (.ok p) (.ok rd)).map
          (fun w => w.report) = some none) ∧
      (∀ s : WeeklyStatsResp, rd.is_locked = false → rd.stats = some s →
        (StorageService.getWeeklyPlan env (.ok p) (.ok rd)).map
          (fun w => w.report) =
          some (some
            { averageScore := s.average_score
              consistencyScore := s.consistency_score
              strongestFeature := s.top_metric
              weakestFeature := s.weakest_metric
              stats :=
                { symmetry := (s.metric_averages.lookup "symmetry").getD 0
                  jawline := (s.metric_averages.lookup "jawline").getD 0
                  proportions := (s.metric_averages.lookup "proportions").getD 0
                  skinClarity := (s.metric_averages.lookup "skin_clarity").getD 0
                  masculinity := (s.metric_averages.lookup "masculinity").getD 0
                  cheekbones := (s.metric_averages.lookup "cheekbones").getD 0
                  overall := s.average_score } }))) := by
  constructor
  · intro rr hlock
    cases rr <;> simp [StorageService.getWeeklyPlan, hlock]
  · intro routine rd hlock hroutine
    refine ⟨?_, ?_, ?_, ?_⟩
    · simp only [StorageService.getWeeklyPlan, hlock, hroutine, if_false,
        Bool.false_eq_true, Option.map_some', List.map_map]
      exact congrArg some (by simpa using enum_map_weekly_ids routine)
    · intro hrl
      simp [StorageService.getWeeklyPlan, hlock, hroutine, hrl]
    · intro hrs
      simp [StorageService.getWeeklyPlan, hlock, hroutine, hrs]
    · intro s hrl hrs
      simp [StorageService.getWeeklyPlan, hlock, hroutine, hrl, hrs]

/-- Claim C8 witness: a locked plan with a failed report fetch is
absent; an unlocked two-exercise plan with an unlocked report missing
the cheekbones metric gets ids weekly_0, weekly_1 and a report whose
cheekbones average defaults to 0. -/
theorem C8_getWeeklyPlan_witness :
    (StorageService.getWeeklyPlan env0
      (.ok { is_locked := true, weekly_routine := none })
      (.error ()) = none) ∧
    ((StorageService.getWeeklyPlan env0
        (.ok { is_locked := false,
               weekly_routine := some
                [{ name := "Mewing", instructions := some "Hold", duration := "5 min" },
                 { name := "Chewing", instructions := none, duration := "10 min" }] })
        (.ok { is_locked := false,
               stats := some
                { average_score := 82, consistency_score := 9,
                  metric_averages :=
                    [("symmetry", 80), ("jawline", 81), ("proportions", 82),
                     ("skin_clarity", 83), ("masculinity", 84)],
                  top_metric := "masculinity", weakest_metric := "symmetry" } })).map
      (fun w => w.exercises.map (fun e => e.id)) = some ["weekly_0", "weekly_1"]) ∧
    ((StorageService.getWeeklyPlan env0
        (.ok { is_locked := false,
               weekly_routine := some
                [{ name := "Mewing", instructions := some "Hold", duration := "5 min" },
                 { name := "Chewing", instructions := none, duration := "10 min" }] })
        (.ok { is_locked := false,
               stats := some
                { average_score := 82, consistency_score := 9,
                  metric_averages :=
                    [("symmetry", 80), ("jawline", 81), ("proportions", 82),
                     ("skin_clarity", 83), ("masculinity", 84)],
                  top_metric := "masculinity", weakest_metric := "symmetry" } })).map
      (fun w => (w.report.map (fun r => r.stats.cheekbones))) = some (some 0)) := by
  refine ⟨(C8_getWeeklyPlan env0 _).1 (.error ()) rfl, ?_, by decide⟩
  exact ((C8_getWeeklyPlan env0 _).2 _ _ rfl rfl).1.trans (by decide)

/-- Claim C9: no read of the synchronization core throws:
getMorningRoutine yields the empty sequence on a failed fetch, a
locked plan, or an absent routine; getWeeklyPlan yields absent on any
failed fetch or a locked plan; getScans yields the empty sequence with
no session or whenever the stored value is not a scans list (absence
or a parse failure). -/
theorem C9_reads_never_throw :
    (∀ e : Unit, getMorningRoutine (.error e) = []) ∧
    (∀ p : DailyPlanResponse, p.is_locked = some true →
      getMorningRoutine (.ok p) = []) ∧
    (∀ p : DailyPlanResponse, p.routine = none → getMorningRoutine (.ok p) = []) ∧
    (∀ (env : Env) (rr : Except Unit WeeklyReportResp) (e : Unit),
      StorageService.getWeeklyPlan env (.error e) rr = none) ∧
    (∀ (env : Env) (pr : Except Unit WeeklyPlanResp) (e : Unit),
      StorageService.getWeeklyPlan env pr (.error e) = none) ∧
    (∀ (env : Env) (p : WeeklyPlanResp) (rd : WeeklyReportResp),
      p.is_locked = true →
      StorageService.getWeeklyPlan env (.ok p) (.ok rd) = none) ∧
    (∀ st : Store, StorageService.getScans st none = []) ∧
    (∀ (st : Store) (u : String),
      (∀ l : List ScanRecord,
        getItem st (KEYS.SCANS ++ "_" ++ u) ≠ some (.scans l)) →
      StorageService.getScans st (some u) = []) := by
  refine ⟨fun e => rfl, ?_, ?_, ?_, ?_, ?_, fun st => rfl, ?_⟩
  · intro p hlock
    simp [getMorningRoutine, hlock]
  · intro p hroutine
    cases hl : p.is_locked with
    | none => simp [getMorningRoutine, hl, hroutine]
    | some b => cases b <;> simp [getMorningRoutine, hl, hroutine]
  · intro env rr e
    cases rr <;> rfl
  · intro env pr e
    cases pr <;> rfl
  · intro env p rd hlock
    simp [StorageService.getWeeklyPlan, hlock]
  · intro st u h
    unfold StorageService.getScans
    simp only [getUserKey, Option.map_some']

/-- Claim C9 witness: a locked daily plan and a wrong-shaped scans blob
both degrade to the empty sequence. -/
theorem C9_reads_never_throw_witness :
    (({ is_locked := some true, routine := some [] } : DailyPlanResponse).is_locked
        = some true ∧
      getMorningRoutine (.ok { is_locked := some true, routine := some [] }) = []) ∧
    ((∀ l : List ScanRecord,
        getItem [(KEYS.SCANS ++ "_" ++ "u1", StoredVal.profile p0)]
          (KEYS.SCANS ++ "_" ++ "u1") ≠ some (.scans l)) ∧
      StorageService.getScans [(KEYS.SCANS ++ "_" ++ "u1", StoredVal.profile p0)]
        (some "u1") = []) := by
  refine ⟨⟨rfl, C9_reads_never_throw.2.1 _ rfl⟩, ⟨?_, ?_⟩⟩
  · intro l
    simp [getItem]
  · exact C9_reads_never_throw.2.2.2.2.2.2.2 _ "u1" (fun l => by simp [getItem])

lemma getDailyUsageCount_congr (env : Env) (st st' : Store) (u : String)
    (h : getItem st' (KEYS.DAILY_USAGE ++ "_" ++ u) =
      getItem st (KEYS.DAILY_USAGE ++ "_" ++ u)) :
    StorageService.getDailyUsageCount env st' (some u) =
      StorageService.getDailyUsageCount env st (some u) := by
  simp only [StorageService.getDailyUsageCount, getUserKey, Option.map_some', h]

lemma getLifetimeStats_congr (st st' : Store) (u : String)
    (h : getItem st' (KEYS.LIFETIME_STATS ++ "_" ++ u) =
      getItem st (KEYS.LIFETIME_STATS ++ "_" ++ u)) :
    StorageService.getLifetimeStats st' (some u) =
      StorageService.getLifetimeStats st (some u) := by
  simp only [StorageService.getLifetimeStats, getUserKey, Option.map_some', h]

/-- Claim C10: when DataContext.addScan receives a record whose id is
already in the in-memory list, the list is unchanged but the persisted
side effects still run: the daily usage count read back from the
resulting store is one more than before, and lifetime totalScans is
one more than before. -/
theorem C10_addScan_duplicate_side_effects (env : Env) (st : Store) (u : String)
    (scans : List ScanRecord) (newScan : ScanRecord)
    (h : scans.any (fun s => s.id = newScan.id) = true) :
    (DataContext.addScan env st (some u) scans newScan).1 = scans ∧
    StorageService.getDailyUsageCount env
        (DataContext.addScan env st (some u) scans newScan).2.2.2 (some u) =
      StorageService.getDailyUsageCount env st (some u) + 1 ∧
    (StorageService.getLifetimeStats
        (DataContext.addScan env st (some u) scans newScan).2.2.2 (some u)).totalScans =
      (StorageService.getLifetimeStats st (some u)).totalScans + 1 := by
  have hlist : (DataContext.addScan env st (some u) scans newScan).1 = scans :=
    insertScan_mem_id scans newScan h
  have hst1 : (StorageService.incrementDailyUsage env st (some u)).2 =
      setItem st (KEYS.DAILY_USAGE ++ "_" ++ u)
        (.usage env.today (StorageService.getDailyUsageCount env st (some u) + 1)
          env.now) := rfl
  have hst2 : (DataContext.addScan env st (some u) scans newScan).2.2.2 =
      StorageService.updateLifetimeStats env
        (StorageService.incrementDailyUsage env st (some u)).2 (some u) := rfl
  have hkey1 : (KEYS.LIFETIME_STATS ++ "_" ++ u) ≠ (KEYS.DAILY_USAGE ++ "_" ++ u) :=
    userKey_ne (by simp [BASES]) (by simp [BASES]) (Or.inl (by decide))
  have hkey2 : (KEYS.DAILY_USAGE ++ "_" ++ u) ≠ (KEYS.LIFETIME_STATS ++ "_" ++ u) :=
    userKey_ne (by simp [BASES]) (by simp [BASES]) (Or.inl (by decide))
  have hupd : StorageService.updateLifetimeStats env
      (StorageService.incrementDailyUsage env st (some u)).2 (some u) =
      setItem (StorageService.incrementDailyUsage env st (some u)).2
        (KEYS.LIFETIME_STATS ++ "_" ++ u)
        (.lifetime
          { totalScans := (StorageService.getLifetimeStats
              (StorageService.incrementDailyUsage env st (some u)).2 (some u)).totalScans + 1
            daysActive :=
              if (StorageService.getLifetimeStats
                  (StorageService.incrementDailyUsage env st (some u)).2 (some u)).lastScanDate
                  ≠ env.todayLocale
              then (StorageService.getLifetimeStats
                  (StorageService.incrementDailyUsage env st (some u)).2 (some u)).daysActive + 1
              else (StorageService.getLifetimeStats
                  (StorageService.incrementDailyUsage env st (some u)).2 (some u)).daysActive
            lastScanDate := env.todayLocale }) := rfl
  refine ⟨hlist, ?_, ?_⟩
  · rw [hst2, hupd]
    rw [getDailyUsageCount_congr env _ _ u
      (getItem_setItem_ne _ _ _ _ hkey1)]
    exact getDailyUsageCount_increment env st u
  · rw [hst2, getLifetimeStats_update]
    have hlife : StorageService.getLifetimeStats
        (StorageService.incrementDailyUsage env st (some u)).2 (some u) =
        StorageService.getLifetimeStats st (some u) := by
      rw [hst1]
      exact getLifetimeStats_congr _ _ u (getItem_setItem_ne _ _ _ _ hkey2)
    rw [hlife]

/-- Claim C10 witness: adding a record that repeats scanA's id to the
list [scanA] over an empty store leaves the list unchanged while both
persisted counters go from 0 to 1. -/
theorem C10_addScan_duplicate_side_effects_witness :
    ([scanA].any (fun s => s.id = scanADup.id) = true) ∧
    (DataContext.addScan env0 [] (some "u1") [scanA] scanADup).1 = [scanA] ∧
    StorageService.getDailyUsageCount env0
        (DataContext.addScan env0 [] (some "u1") [scanA] scanADup).2.2.2 (some "u1") =
      StorageService.getDailyUsageCount env0 [] (some "u1") + 1 ∧
    (StorageService.getLifetimeStats
        (DataContext.addScan env0 [] (some "u1") [scanA] scanADup).2.2.2
        (some "u1")).totalScans =
      (StorageService.getLifetimeStats [] (some "u1")).totalScans + 1 :=
  ⟨by decide,
    C10_addScan_duplicate_side_effects env0 [] "u1" [scanA] scanADup (by decide)⟩

end Lookmax
